import Mathlib

/-!
Formal model of the record-upload-predict workflow of the Hopkins-Project
mobile client, translated from `src/Frontend/screens/HomeScreen.js`.

The component state of `HomeScreen` (the React `useState` variables
`recording`, `isRecording`, `prediction`, `confidence`, `vowelToRecord`)
is embedded as a `Client` structure, extended with the permission result
obtained in the startup `useEffect`, the last `Alert.alert` shown, and
ghost instrumentation (in-flight stop/upload markers and counters) used
only to state temporal properties; the ghost fields are never read by the
modelled code paths.

Asynchronous execution is modelled as a sequence of atomic events:
a user press of the record button (`Ev.press`), the settlement of a
press-initiated `stopAndUnloadAsync` (`Ev.stopResolve`), and the
settlement of the `axios.post` upload (`Ev.uploadResolve`).  A press
handler runs synchronously up to its first `await`; the `await`s inside
`startRecording` (`setAudioModeAsync`, `createAsync`) and the second half
of `stopRecording` are collapsed into their enclosing event.  Numeric
JSON values are modelled as exact decimals (mantissa and decimal
exponent), the form JSON number literals take; IEEE float rounding is not
modelled, and for the concrete values appearing in the specification the
observable formatting agrees with JavaScript evaluation.

Vendor (expo-av / axios) behaviour assumed by the model, from the vendor
documentation and sources, is noted at each definition: in particular
`Recording.stopAndUnloadAsync` rejects when called on a recording that is
already unloaded (or whose stop is still in flight), and `axios` rejects
the promise for non-2xx responses.
-/

/-- Alert dialogs are observable as (title, message) pairs, as produced by
`Alert.alert(title, message)` calls in `HomeScreen.js`. -/
abbrev AlertMsg := String × String

/-- Lifecycle state of the expo-av `Recording` object held in the
`recording` React state variable: `loaded` once `Audio.Recording.createAsync`
has succeeded, `unloaded` after `stopAndUnloadAsync` has completed.  expo-av
rejects a second `stopAndUnloadAsync` on an unloaded handle. -/
inductive HState
  | loaded
  | unloaded
deriving DecidableEq, Repr

/-- JSON number literal, as an exact decimal `mant * 10 ^ (- exp)`:
`0.87` is `⟨87, 2⟩` and `0` is `⟨0, 0⟩`.  JavaScript number truthiness is
decided by `mant` (only the number 0 is falsy). -/
structure DecNum where
  mant : Int
  exp : Nat
deriving DecidableEq, Repr

/-- Parsed JSON body of a 2xx reply, as consumed by `uploadAudio`
(`HomeScreen.js` lines 121-130): the `prediction` and `confidence` fields
may each be absent.  A numeric `confidence` is modelled as an exact
decimal. -/
structure RespBody where
  prediction : Option String
  confidence : Option DecNum
deriving DecidableEq, Repr

/-- Outcome of the `axios.post` call in `uploadAudio`, covering the four
branches of its try/catch (`HomeScreen.js` lines 114-152): a 2xx response
whose parsed body is `data` (`none` models a null/empty body), a non-2xx
response (axios rejects with `error.response` set; `data` is the
JSON-stringified error body), no response at all (`error.request` set),
or a request-setup error carrying only `error.message`. -/
inductive ServerOutcome
  | ok (data : Option RespBody)
  | httpError (status : Nat) (data : String)
  | noResponse
  | setupError (msg : String)
deriving DecidableEq, Repr

/-- Events driving the client: a press of the record toggle (with `envOk`
telling whether the OS grants `Audio.Recording.createAsync`, in addition to
the permission flag), settlement of the press-initiated
`stopAndUnloadAsync`, and settlement of the upload. -/
inductive Ev
  | press (envOk : Bool)
  | stopResolve
  | uploadResolve (out : ServerOutcome)
deriving DecidableEq, Repr

/-- Component state of `HomeScreen` plus ghost instrumentation.  The five
leading fields are the `useState` variables of `HomeScreen.js` lines 11-15
(the `recording` object abstracted to its lifecycle state); `permission`
records the startup `Audio.requestPermissionsAsync` result,
`warnedAtStartup` whether the startup permission alert fired, and
`lastAlert` the most recent `Alert.alert`.  The remaining fields are ghost:
`stopping` marks a press-initiated `stopAndUnloadAsync` in flight,
`uploading` counts in-flight `axios.post` calls, `osActive` counts OS-level
recording sessions currently active, and the two counters count successful
`createAsync` calls and `axios.post` submissions. -/
structure Client where
  recording : Option HState
  isRecording : Bool
  prediction : String
  confidence : String
  vowelToRecord : String
  permission : Bool
  warnedAtStartup : Bool
  lastAlert : Option AlertMsg
  stopping : Bool
  uploading : Nat
  osActive : Nat
  recordingsStarted : Nat
  uploadsStarted : Nat
deriving DecidableEq, Repr

/-- Startup permission alert of the `useEffect` at `HomeScreen.js`
lines 17-24. -/
def permissionAlert : AlertMsg :=
  ("Permission required", "Please grant microphone access to use this app.")

/-- Initial component state (`HomeScreen.js` lines 11-15) after the
startup `useEffect` has run: `granted` is the result of
`Audio.requestPermissionsAsync`; when it is not granted the permission
alert is shown once. -/
def clientInit (granted : Bool) : Client :=
  { recording := none
    isRecording := false
    prediction := "No prediction yet"
    confidence := ""
    vowelToRecord := "a"
    permission := granted
    warnedAtStartup := !granted
    lastAlert := if granted then none else some permissionAlert
    stopping := false
    uploading := 0
    osActive := 0
    recordingsStarted := 0
    uploadsStarted := 0 }

/-- Catch branch of `startRecording` (`HomeScreen.js` lines 58-68): an
alert with the thrown message, `isRecording` cleared and the status text
set to "Error".  Neither `recording` nor `confidence` is written. -/
def recError (msg : String) (s : Client) : Client :=
  { s with isRecording := false
           prediction := "Error"
           lastAlert := some ("Recording Error",
             "Failed to start recording: " ++ msg
               ++ ". Check browser microphone permissions.") }

/-- Tail of `startRecording` (`HomeScreen.js` lines 33-57):
`Audio.setAudioModeAsync` (modelled as always succeeding) followed by
`Audio.Recording.createAsync`, which succeeds only when microphone
permission is granted and the OS call succeeds (`envOk`); on success the
new handle is stored and `isRecording`/status/confidence are set, on
failure the catch branch runs with the vendor error message. -/
def createRec (envOk : Bool) (s : Client) : Client :=
  if s.permission && envOk then
    { s with recording := some HState.loaded
             osActive := s.osActive + 1
             recordingsStarted := s.recordingsStarted + 1
             isRecording := true
             prediction := "Recording..."
             confidence := "" }
  else
    recError (if s.permission then "Recording not started"
      else "Missing audio recording permissions.") s

/-- Body of `startRecording` (`HomeScreen.js` lines 26-69).  When a
previous `recording` object is still held, `await stopRecording()` runs
first: if that handle is still loaded and not already mid-stop the stop
succeeds (clearing `isRecording`, unloading the handle and writing the
"Processing..." status, per lines 71-84) and recording creation proceeds;
otherwise `stopAndUnloadAsync` rejects (expo-av: a Recording that is
already unloaded, or already stopping, cannot be unloaded again) and the
catch branch of `startRecording` runs. -/
def startRecording (envOk : Bool) (s : Client) : Client :=
  match s.recording with
  | some h =>
      if h = HState.loaded && !s.stopping then
        createRec envOk
          { s with isRecording := false
                   recording := some HState.unloaded
                   osActive := s.osActive - 1
                   prediction := "Processing..."
                   confidence := "" }
      else
        recError "Cannot unload a Recording that has already been unloaded." s
  | none => createRec envOk s

/-- Result of one settled upload: the `prediction` and `confidence` state
strings written by `uploadAudio`, and the alert shown. -/
structure UploadResult where
  prediction : String
  confidence : String
  alert : AlertMsg
deriving DecidableEq, Repr

/-- Status-and-alert written by `uploadAudio` when a 2xx body has no
truthy `prediction` field (`HomeScreen.js` lines 126-130). -/
def notFoundResult : UploadResult :=
  { prediction := "Prediction not found in response."
    confidence := ""
    alert := ("Error", "Prediction not found in backend response.") }

/-- Backend URL constant of `uploadAudio` (`HomeScreen.js` line 104). -/
def backendUrl : String := "http://localhost:8000/predict/"

/-- Multiplication of a decimal by 100, the `confidence * 100` of
`HomeScreen.js` line 124. -/
def DecNum.timesHundred (x : DecNum) : DecNum := { x with mant := x.mant * 100 }

/-- JavaScript `Number.prototype.toFixed(2)` for nonnegative values (the
only values reaching it here): the integer `n` closest to `100 * x`, ties
to the larger — that is, `n = floor(100 * x + 1/2)`, computed here over
integers as `floor((200 * mant + 10 ^ exp) / (2 * 10 ^ exp))` — printed
with exactly two decimals. -/
def toFixed2 (x : DecNum) : String :=
  let n : Nat := (200 * x.mant.toNat + 10 ^ x.exp) / (2 * 10 ^ x.exp)
  toString (n / 100) ++ "."
    ++ (if n % 100 < 10 then "0" ++ toString (n % 100) else toString (n % 100))

/-- Confidence formatting of `uploadAudio` (`HomeScreen.js` line 124):
the template string of `(confidence * 100).toFixed(2)` followed by "%". -/
def formatConfidence (q : DecNum) : String := toFixed2 q.timesHundred ++ "%"

/-- Settlement of the `axios.post` of `uploadAudio` (`HomeScreen.js`
lines 114-152).  A 2xx response takes the `response.data &&
response.data.prediction` branch, with JavaScript truthiness: a null body,
an absent or empty-string `prediction` are falsy; `response.data.confidence`
is falsy when absent or equal to 0, in which case the confidence string is
set to "".  The three catch branches produce the three distinct alerts of
lines 136-151. -/
def resolveUpload (out : ServerOutcome) : UploadResult :=
  match out with
  | ServerOutcome.ok data =>
      match data with
      | some body =>
          match body.prediction with
          | some lbl =>
              if lbl != "" then
                { prediction := lbl
                  confidence :=
                    match body.confidence with
                    | some q => if q.mant != 0 then formatConfidence q else ""
                    | none => ""
                  alert := ("Prediction Received", "Prediction: " ++ lbl) }
              else notFoundResult
          | none => notFoundResult
      | none => notFoundResult
  | ServerOutcome.httpError status data =>
      { prediction := "Error sending to backend."
        confidence := ""
        alert := ("Backend Error",
          "Server responded with status " ++ toString status ++ ": " ++ data) }
  | ServerOutcome.noResponse =>
      { prediction := "Error sending to backend."
        confidence := ""
        alert := ("Network Error",
          "No response from backend. Is it running at " ++ backendUrl ++ "?") }
  | ServerOutcome.setupError msg =>
      { prediction := "Error sending to backend."
        confidence := ""
        alert := ("Error", "Could not send request: " ++ msg) }

/-- One atomic event of the client (see the module comment).
A press with `isRecording` set runs the synchronous prefix of
`stopRecording` (`HomeScreen.js` lines 71-74: `setIsRecording(false)` and
the start of `stopAndUnloadAsync`); a press without it runs
`startRecording`.  `stopResolve` completes `stopRecording` (unload,
audio-mode reset, URI retrieval, the "Processing..." status) and, the URI
being non-null, immediately runs the synchronous prefix of `uploadAudio`
(lines 97-119: the "Sending to backend..." status and the `axios.post`
submission).  `uploadResolve` applies the settled upload result. -/
def clientStep (s : Client) (e : Ev) : Client :=
  match e with
  | Ev.press envOk =>
      if s.isRecording then
        { s with isRecording := false, stopping := true }
      else
        startRecording envOk s
  | Ev.stopResolve =>
      if s.stopping then
        { s with stopping := false
                 recording := some HState.unloaded
                 osActive := s.osActive - 1
                 prediction := "Sending to backend..."
                 confidence := ""
                 uploading := s.uploading + 1
                 uploadsStarted := s.uploadsStarted + 1 }
      else s
  | Ev.uploadResolve out =>
      if s.uploading ≠ 0 then
        { s with uploading := s.uploading - 1
                 prediction := (resolveUpload out).prediction
                 confidence := (resolveUpload out).confidence
                 lastAlert := some (resolveUpload out).alert }
      else s

/-- Execution of a sequence of events from a client state. -/
def clientRun (s : Client) (es : List Ev) : Client := es.foldl clientStep s

/-- Title of the record toggle button, from the render of `HomeScreen.js`
(line 170): it is an observable string driven by `isRecording`. -/
def buttonTitle (s : Client) : String :=
  if s.isRecording then "Stop Recording" else "Start Recording"

/-- Rendered confidence line (`HomeScreen.js` line 161): the confidence
text element is rendered only when the `confidence` string is truthy,
i.e. nonempty. -/
def renderedConfidenceText (c : String) : Option String :=
  if c = "" then none else some ("Confidence: " ++ c)

/-- Inductive invariant of the client model, relating the React state
flags, the handle lifecycle and the ghost instrumentation: `isRecording`
holds only with a loaded handle and nothing in flight; a press-initiated
stop is in flight only with a loaded handle; an upload is in flight only
after the handle was unloaded, and never more than one; `osActive`
mirrors whether the handle is loaded; a loaded handle means recording or
stopping; a nonempty confidence string occurs only in the settled
post-upload state; and with permission denied the client never acquires a
handle, never counts a recording or upload, and carries the startup
warning. -/
def ClientInv (s : Client) : Prop :=
  (s.isRecording = true →
    s.recording = some HState.loaded ∧ s.stopping = false ∧ s.uploading = 0) ∧
  (s.stopping = true →
    s.recording = some HState.loaded ∧ s.isRecording = false ∧ s.uploading = 0) ∧
  (1 ≤ s.uploading →
    s.recording = some HState.unloaded ∧ s.isRecording = false ∧
      s.stopping = false ∧ s.uploading = 1) ∧
  (s.osActive = if s.recording = some HState.loaded then 1 else 0) ∧
  (s.recording = none →
    s.isRecording = false ∧ s.stopping = false ∧ s.uploading = 0) ∧
  (s.recording = some HState.loaded → s.isRecording = true ∨ s.stopping = true) ∧
  (s.confidence ≠ "" →
    s.recording = some HState.unloaded ∧ s.stopping = false ∧
      s.uploading = 0 ∧ s.isRecording = false) ∧
  (s.permission = false →
    s.recording = none ∧ s.recordingsStarted = 0 ∧ s.uploadsStarted = 0 ∧
      s.warnedAtStartup = true ∧ s.isRecording = false)

/-- Initial states satisfy the invariant. -/
theorem clientInit_inv (granted : Bool) : ClientInv (clientInit granted) := by
  cases granted <;> simp [ClientInv, clientInit]

/-- One step preserves the invariant. -/
theorem clientStep_inv {s : Client} (h : ClientInv s) (e : Ev) :
    ClientInv (clientStep s e) := by
  obtain ⟨h1, h2, h3, h4, h5, h6, h7, h8⟩ := h
  cases e with
  | press envOk =>
      cases hR : s.isRecording with
      | true =>
          obtain ⟨hL, hSt, hU⟩ := h1 hR
          simp_all [ClientInv, clientStep]
      | false =>
          cases hRec : s.recording with
          | none =>
              cases hP : s.permission with
              | true =>
                  cases hE : envOk with
                  | true =>
                      simp_all [ClientInv, clientStep, startRecording, createRec]
                  | false =>
                      simp_all [ClientInv, clientStep, startRecording, createRec,
                        recError]
              | false =>
                  simp_all [ClientInv, clientStep, startRecording, createRec,
                    recError]
          | some hs =>
              cases hs with
              | loaded =>
                  rcases h6 hRec with hIs | hSt
                  · simp_all
                  · simp_all [ClientInv, clientStep, startRecording, recError]
              | unloaded =>
                  simp_all [ClientInv, clientStep, startRecording, recError]
  | stopResolve =>
      cases hSt : s.stopping with
      | true =>
          obtain ⟨hL, hIs, hU⟩ := h2 hSt
          simp_all [ClientInv, clientStep]
      | false =>
          simp_all [ClientInv, clientStep]
  | uploadResolve out =>
      cases hU : s.uploading with
      | zero => simp_all [ClientInv, clientStep]
      | succ n =>
          obtain ⟨hL, hIs, hSt, hOne⟩ := h3 (by omega)
          simp_all [ClientInv, clientStep]

/-- Steps never change the stored permission result. -/
theorem clientStep_permission (s : Client) (e : Ev) :
    (clientStep s e).permission = s.permission := by
  cases e with
  | press envOk =>
      cases hR : s.isRecording with
      | true => simp [clientStep, hR]
      | false =>
          cases hRec : s.recording with
          | none =>
              cases hP : s.permission <;> cases hE : envOk <;>
                simp_all [clientStep, startRecording, createRec, recError]
          | some hs =>
              cases hs <;> cases hSt : s.stopping <;>
                cases hP : s.permission <;> cases hE : envOk <;>
                simp_all [clientStep, startRecording, createRec, recError]
  | stopResolve => cases hSt : s.stopping <;> simp [clientStep, hSt]
  | uploadResolve out =>
      cases hU : s.uploading <;> simp [clientStep, hU]

/-- Steps never change the vowel display text. -/
theorem clientStep_vowel (s : Client) (e : Ev) :
    (clientStep s e).vowelToRecord = s.vowelToRecord := by
  cases e with
  | press envOk =>
      cases hR : s.isRecording with
      | true => simp [clientStep, hR]
      | false =>
          cases hRec : s.recording with
          | none =>
              cases hP : s.permission <;> cases hE : envOk <;>
                simp_all [clientStep, startRecording, createRec, recError]
          | some hs =>
              cases hs <;> cases hSt : s.stopping <;>
                cases hP : s.permission <;> cases hE : envOk <;>
                simp_all [clientStep, startRecording, createRec, recError]
  | stopResolve => cases hSt : s.stopping <;> simp [clientStep, hSt]
  | uploadResolve out =>
      cases hU : s.uploading <;> simp [clientStep, hU]

/-- Unfolding of a run on a cons of events. -/
theorem clientRun_cons (s : Client) (e : Ev) (es : List Ev) :
    clientRun s (e :: es) = clientRun (clientStep s e) es := rfl

/-- A whole run preserves the invariant. -/
theorem clientRun_inv {s : Client} (h : ClientInv s) (es : List Ev) :
    ClientInv (clientRun s es) := by
  induction es generalizing s with
  | nil => exact h
  | cons e es ih => exact ih (clientStep_inv h e)

/-- A whole run preserves the stored permission result. -/
theorem clientRun_permission (s : Client) (es : List Ev) :
    (clientRun s es).permission = s.permission := by
  induction es generalizing s with
  | nil => rfl
  | cons e es ih => rw [clientRun_cons, ih, clientStep_permission]

/-- Concrete 2xx body of the specification's worked example: prediction
"hypernasal" with confidence 0.87. -/
def body87 : RespBody := { prediction := some "hypernasal", confidence := some ⟨87, 2⟩ }

/-- Event sequence that starts a recording, presses again to stop it, and
lets the stop settle, leaving the upload in flight. -/
def uploadPendingTrace : List Ev := [Ev.press true, Ev.press true, Ev.stopResolve]

/-- Event sequence of one full successful cycle: start, stop, upload
settles with the worked-example body. -/
def successCycleTrace : List Ev :=
  [Ev.press true, Ev.press true, Ev.stopResolve,
    Ev.uploadResolve (ServerOutcome.ok (some body87))]

/-- C1: for every execution of the client, at most one upload is ever in
flight, and a press of the record toggle that arrives while the machine is
in the Stopping or Uploading phase (a press-initiated stop or an upload in
flight) neither starts a new recording nor submits another upload: the
stale handle makes the re-entrant `stopRecording` call reject, so the
press falls into the recording-error path and both ghost counters are
unchanged. -/
theorem press_during_stop_or_upload_starts_nothing (p envOk : Bool) (es : List Ev) :
    (clientRun (clientInit p) es).uploading ≤ 1 ∧
    ((clientRun (clientInit p) es).stopping = true ∨
        1 ≤ (clientRun (clientInit p) es).uploading →
      (clientStep (clientRun (clientInit p) es) (Ev.press envOk)).recordingsStarted
          = (clientRun (clientInit p) es).recordingsStarted ∧
      (clientStep (clientRun (clientInit p) es) (Ev.press envOk)).uploadsStarted
          = (clientRun (clientInit p) es).uploadsStarted) := by
  obtain ⟨h1, h2, h3, h4, h5, h6, h7, h8⟩ := clientRun_inv (clientInit_inv p) es
  set s := clientRun (clientInit p) es with hs
  constructor
  · rcases Nat.eq_zero_or_pos s.uploading with h | h
    · omega
    · have := (h3 h).2.2.2; omega
  · intro hPh
    rcases hPh with hSt | hUp
    · obtain ⟨hRec, hIsR, hU⟩ := h2 hSt
      simp [clientStep, hIsR, startRecording, hRec, hSt, recError]
    · obtain ⟨hRec, hIsR, hStop, hU⟩ := h3 hUp
      simp [clientStep, hIsR, startRecording, hRec, hStop, recError]

/-- Witness for C1 at a concrete execution: after starting, stopping and
handing off to upload, an upload is in flight, and a further press leaves
the upload counter unchanged. -/
theorem press_during_stop_or_upload_starts_nothing_witness :
    1 ≤ (clientRun (clientInit true) uploadPendingTrace).uploading ∧
    (clientStep (clientRun (clientInit true) uploadPendingTrace)
        (Ev.press true)).uploadsStarted
      = (clientRun (clientInit true) uploadPendingTrace).uploadsStarted :=
  ⟨by decide,
   ((press_during_stop_or_upload_starts_nothing true true uploadPendingTrace).2
      (Or.inr (by decide))).2⟩

/-- C2: when microphone permission was denied at startup, every execution
keeps the machine in the idle state: the recording flag stays false, no
handle is ever acquired, no recording is started and no upload is
submitted, while the startup permission warning has been surfaced and
remains recorded. -/
theorem permission_denied_stays_idle (es : List Ev) :
    (clientRun (clientInit false) es).isRecording = false ∧
    (clientRun (clientInit false) es).recording = none ∧
    (clientRun (clientInit false) es).recordingsStarted = 0 ∧
    (clientRun (clientInit false) es).uploadsStarted = 0 ∧
    (clientRun (clientInit false) es).uploading = 0 ∧
    (clientRun (clientInit false) es).warnedAtStartup = true := by
  obtain ⟨h1, h2, h3, h4, h5, h6, h7, h8⟩ := clientRun_inv (clientInit_inv false) es
  have hPerm : (clientRun (clientInit false) es).permission = false := by
    rw [clientRun_permission]; rfl
  obtain ⟨hrec, hrs, hus, hw, hir⟩ := h8 hPerm
  exact ⟨hir, hrec, hrs, hus, (h5 hrec).2.2, hw⟩

/-- C3: evaluation at the failing input.  A full successful cycle (start,
stop, upload, 2xx prediction) displays the label; the next press of the
record toggle does not start a new recording: `startRecording` finds the
stale, already-unloaded handle (never cleared by `stopRecording`), its
re-entrant `stopRecording` call rejects, and the client shows "Error" with
the recording counter still at one. -/
theorem second_cycle_press_fails :
    (clientRun (clientInit true) successCycleTrace).prediction = "hypernasal" ∧
    (clientRun (clientInit true) (successCycleTrace ++ [Ev.press true])).prediction
      = "Error" ∧
    (clientRun (clientInit true) (successCycleTrace ++ [Ev.press true])).isRecording
      = false ∧
    (clientRun (clientInit true)
        (successCycleTrace ++ [Ev.press true])).recordingsStarted = 1 := by
  decide

/-- C4: for the successful server response with body
prediction "hypernasal" and confidence 0.87, the client displays the label
"hypernasal" and the confidence string "87.00%". -/
theorem success_response_displays_label_and_confidence :
    (clientRun (clientInit true) successCycleTrace).prediction = "hypernasal" ∧
    (clientRun (clientInit true) successCycleTrace).confidence = "87.00%" ∧
    renderedConfidenceText (clientRun (clientInit true) successCycleTrace).confidence
      = some "Confidence: 87.00%" := by
  decide

/-- Concrete 2xx body carrying a prediction label and no confidence
field. -/
def bodyNoConf (lbl : String) : RespBody :=
  { prediction := some lbl, confidence := none }

/-- Concrete 2xx body carrying the label "hypernasal" and a confidence
field present and equal to the number 0. -/
def bodyZeroConf : RespBody :=
  { prediction := some "hypernasal", confidence := some ⟨0, 0⟩ }

/-- Concrete 2xx body with no prediction field (malformed for the client's
purposes). -/
def bodyNoPred (c : Option DecNum) : RespBody :=
  { prediction := none, confidence := c }

/-- C5: every 2xx parseable body carrying a (truthy) prediction label but
no confidence field is treated as a success: the label is stored, the
confidence string is set empty so that no confidence text is rendered, and
the success alert (not an error alert) is shown. -/
theorem missing_confidence_is_success (lbl : String) (h : lbl ≠ "") :
    resolveUpload (ServerOutcome.ok (some (bodyNoConf lbl)))
      = { prediction := lbl, confidence := "",
          alert := ("Prediction Received", "Prediction: " ++ lbl) } ∧
    renderedConfidenceText
      (resolveUpload (ServerOutcome.ok (some (bodyNoConf lbl)))).confidence = none := by
  constructor
  · simp [resolveUpload, bodyNoConf, h]
  · simp [resolveUpload, bodyNoConf, h, renderedConfidenceText]

/-- Witness for C5 at the concrete label "normal". -/
theorem missing_confidence_is_success_witness :
    ("normal" : String) ≠ "" ∧
    resolveUpload (ServerOutcome.ok (some (bodyNoConf "normal")))
      = { prediction := "normal", confidence := "",
          alert := ("Prediction Received", "Prediction: normal") } :=
  ⟨by decide, (missing_confidence_is_success "normal" (by decide)).1⟩

/-- C6: counterexample.  For a 2xx body with the label "hypernasal" and no
confidence field, the stored confidence string is the empty string and not
"unknown", refuting the claimed default. -/
theorem confidence_default_not_unknown :
    (resolveUpload (ServerOutcome.ok (some (bodyNoConf "hypernasal")))).confidence
        ≠ "unknown" ∧
    (resolveUpload (ServerOutcome.ok (some (bodyNoConf "hypernasal")))).confidence
        = "" := by
  decide

/-- C6 as amended: on the Uploading-to-Success transition with a 2xx body
carrying a label but no confidence field, the displayed confidence
defaults to the empty string, so no confidence text is rendered; the
string "unknown" is never produced. -/
theorem confidence_defaults_to_empty (lbl : String) (h : lbl ≠ "") :
    (resolveUpload (ServerOutcome.ok (some (bodyNoConf lbl)))).confidence = "" ∧
    renderedConfidenceText
      (resolveUpload (ServerOutcome.ok (some (bodyNoConf lbl)))).confidence = none := by
  constructor
  · simp [resolveUpload, bodyNoConf, h]
  · simp [resolveUpload, bodyNoConf, h, renderedConfidenceText]

/-- Witness for the amended C6 at the concrete label "hypernasal". -/
theorem confidence_defaults_to_empty_witness :
    ("hypernasal" : String) ≠ "" ∧
    renderedConfidenceText
      (resolveUpload (ServerOutcome.ok (some (bodyNoConf "hypernasal")))).confidence
        = none :=
  ⟨by decide, (confidence_defaults_to_empty "hypernasal" (by decide)).2⟩

/-- C7: the three remote failure shapes — no response received, non-2xx
response with a status code, and 2xx response whose body lacks a
prediction — surface pairwise distinct alerts, and the non-2xx alert
carries the status code in its message. -/
theorem failure_categories_distinguishable (status : Nat) (d : String) (c : Option DecNum) :
    (resolveUpload ServerOutcome.noResponse).alert
        ≠ (resolveUpload (ServerOutcome.httpError status d)).alert ∧
    (resolveUpload ServerOutcome.noResponse).alert
        ≠ (resolveUpload (ServerOutcome.ok (some (bodyNoPred c)))).alert ∧
    (resolveUpload (ServerOutcome.httpError status d)).alert
        ≠ (resolveUpload (ServerOutcome.ok (some (bodyNoPred c)))).alert ∧
    (resolveUpload (ServerOutcome.httpError status d)).alert
        = ("Backend Error",
            "Server responded with status " ++ toString status ++ ": " ++ d) := by
  refine ⟨?_, ?_, ?_, rfl⟩ <;>
    simp [resolveUpload, notFoundResult, bodyNoPred, Prod.ext_iff]

/-- C10: a successful response whose confidence field is present and equal
to 0 is displayed exactly like one with the field absent: the label is
stored as a success, the confidence string is empty and no confidence text
is rendered, because the code tests the value's truthiness and the number
0 is falsy. -/
theorem zero_confidence_treated_as_absent :
    resolveUpload (ServerOutcome.ok (some bodyZeroConf))
      = { prediction := "hypernasal", confidence := "",
          alert := ("Prediction Received", "Prediction: hypernasal") } ∧
    renderedConfidenceText
      (resolveUpload (ServerOutcome.ok (some bodyZeroConf))).confidence = none ∧
    resolveUpload (ServerOutcome.ok (some bodyZeroConf))
      = resolveUpload (ServerOutcome.ok (some (bodyNoConf "hypernasal"))) := by
  decide

/-- C8: counterexample.  The very first Idle-to-Recording transition
changes the status string and also changes the record button's observable
title (driven by the `isRecording` flag), so the transition does not
update exactly one observable string with no other observable client state
change. -/
theorem transition_changes_two_observables :
    (clientStep (clientInit true) (Ev.press true)).prediction
        ≠ (clientInit true).prediction ∧
    buttonTitle (clientStep (clientInit true) (Ev.press true))
        ≠ buttonTitle (clientInit true) := by
  decide

/-- C8 as amended: among the displayed status, confidence and vowel texts,
every reachable transition leaves the vowel text unchanged and can change
the confidence text only when an upload settles (the Success transition);
but transitions additionally toggle the `isRecording` flag that drives the
record button's title, and may surface alert dialogs. -/
theorem confidence_changes_only_on_upload_resolve (p : Bool) (es : List Ev) (e : Ev) :
    (clientStep (clientRun (clientInit p) es) e).vowelToRecord
        = (clientRun (clientInit p) es).vowelToRecord ∧
    ((clientStep (clientRun (clientInit p) es) e).confidence
          ≠ (clientRun (clientInit p) es).confidence →
      ∃ out, e = Ev.uploadResolve out) := by
  obtain ⟨h1, h2, h3, h4, h5, h6, h7, h8⟩ := clientRun_inv (clientInit_inv p) es
  set s := clientRun (clientInit p) es with hs
  refine ⟨clientStep_vowel s e, fun hB => ?_⟩
  cases e with
  | press envOk =>
      exfalso
      apply hB
      by_cases hc : s.confidence = ""
      · cases hR : s.isRecording with
        | true => simp [clientStep, hR]
        | false =>
            cases hRec : s.recording with
            | none =>
                cases hP : s.permission <;> cases hE : envOk <;>
                  simp_all [clientStep, startRecording, createRec, recError]
            | some hst =>
                cases hst with
                | loaded =>
                    rcases h6 hRec with hIs | hSt
                    · simp_all
                    · simp_all [clientStep, startRecording, recError]
                | unloaded =>
                    simp_all [clientStep, startRecording, recError]
      · obtain ⟨hRec, hSt, hU, hIs⟩ := h7 hc
        simp [clientStep, hIs, startRecording, hRec, hSt, recError]
  | stopResolve =>
      exfalso
      apply hB
      cases hSt : s.stopping with
      | true =>
          have hc : s.confidence = "" := by
            by_contra hc
            have := (h7 hc).2.1
            simp [this] at hSt
          simp [clientStep, hSt, hc]
      | false => simp [clientStep, hSt]
  | uploadResolve out => exact ⟨out, rfl⟩

/-- Witness for the amended C8 at a concrete execution whose confidence
string does change: the changing event is an upload settlement. -/
theorem confidence_changes_only_on_upload_resolve_witness :
    (clientStep (clientRun (clientInit true) uploadPendingTrace)
          (Ev.uploadResolve (ServerOutcome.ok (some body87)))).confidence
        ≠ (clientRun (clientInit true) uploadPendingTrace).confidence ∧
    ∃ out, Ev.uploadResolve (ServerOutcome.ok (some body87)) = Ev.uploadResolve out :=
  ⟨by decide,
   (confidence_changes_only_on_upload_resolve true uploadPendingTrace
      (Ev.uploadResolve (ServerOutcome.ok (some body87)))).2 (by decide)⟩

/-- C9: in every execution at most one OS-level recording session is
active at any point, and whenever a new recording starts (the successful
`createAsync` increments the ghost counter) there was no active session
left at that moment: any previously held session has been stopped or
discarded before the new one begins. -/
theorem at_most_one_active_session (p : Bool) (es : List Ev) (e : Ev) :
    (clientRun (clientInit p) es).osActive ≤ 1 ∧
    ((clientStep (clientRun (clientInit p) es) e).recordingsStarted
          = (clientRun (clientInit p) es).recordingsStarted + 1 →
      (clientRun (clientInit p) es).osActive = 0 ∧
      (clientStep (clientRun (clientInit p) es) e).osActive = 1) := by
  obtain ⟨h1, h2, h3, h4, h5, h6, h7, h8⟩ := clientRun_inv (clientInit_inv p) es
  set s := clientRun (clientInit p) es with hs
  constructor
  · rw [h4]; split <;> omega
  · intro hCr
    cases e with
    | press envOk =>
        cases hR : s.isRecording with
        | true => simp_all [clientStep]
        | false =>
            cases hRec : s.recording with
            | none =>
                have hOs : s.osActive = 0 := by rw [h4]; simp [hRec]
                cases hP : s.permission <;> cases hE : envOk <;>
                  simp_all [clientStep, startRecording, createRec, recError]
            | some hst =>
                cases hst with
                | loaded =>
                    rcases h6 hRec with hIs | hSt
                    · simp_all
                    · simp_all [clientStep, startRecording, recError]
                | unloaded =>
                    simp_all [clientStep, startRecording, recError]
    | stopResolve =>
        cases hSt : s.stopping <;> simp_all [clientStep]
    | uploadResolve out =>
        cases hU : s.uploading <;> simp_all [clientStep]

/-- Witness for C9 at the first concrete press from the initial state: the
recording counter increments and exactly one session becomes active. -/
theorem at_most_one_active_session_witness :
    (clientStep (clientRun (clientInit true) []) (Ev.press true)).recordingsStarted
        = (clientRun (clientInit true) []).recordingsStarted + 1 ∧
    (clientStep (clientRun (clientInit true) []) (Ev.press true)).osActive = 1 :=
  ⟨by decide, ((at_most_one_active_session true [] (Ev.press true)).2 (by decide)).2⟩
